import Mathlib

set_option maxRecDepth 8000

/-!
Verification of the HD44780 adapter/protocol layer of the
`i2c-character-display` driver.

The development shallowly embeds the driver's core:
* the per-adapter bitfield encoders (`GenericPCF8574TBitField`,
  `DualHD44780_PCF8574TBitField`, `AdafruitLCDBackpackBitField`),
* the adapter operations (`AdapterOps` with one instance per adapter),
* the nibble/byte write protocol and the busy-flag/read protocol,
* the controller state machine (`HD44780State` and the display operations).

Bus traffic is made observable as a list of `BusOp` transactions; bus reads
are fed from an explicit script of response bytes.  Machine bytes are
modelled as `Nat` with explicit masking exactly where the source masks.
-/

namespace I2cCharDisplay

/-- One observable I2C bus transaction: a write of a byte list to a device
address, or a single-byte read (recording the byte the bus returned). -/
inductive BusOp where
  | busWrite (addr : Nat) (data : List Nat)
  | busRead (addr : Nat) (value : Nat)
deriving DecidableEq, Repr

/-- Number of bus write transactions in a trace. -/
def countWrites : List BusOp → Nat
  | [] => 0
  | .busWrite _ _ :: rest => countWrites rest + 1
  | .busRead _ _ :: rest => countWrites rest

/-- Number of bus read transactions in a trace. -/
def countReads : List BusOp → Nat
  | [] => 0
  | .busWrite _ _ :: rest => countReads rest
  | .busRead _ _ :: rest => countReads rest + 1

/-- The driver error taxonomy, from `CharacterDisplayError` in `lib.rs`.
The I2C error payload and the formatting error payload are dropped: the
modelled bus never fails and formatting is out of scope. -/
inductive CharacterDisplayError where
  | I2cError
  | RowOutOfRange
  | ColumnOutOfRange
  | FormattingError
  | UnsupportedDisplayType
  | UnsupportedOperation
  | ReadNotSupported
  | BadDeviceId
  | BufferTooSmall
deriving DecidableEq, Repr

/-- Display geometry tags, from `LcdDisplayType` in `lib.rs`. -/
inductive LcdDisplayType where
  | Lcd20x4
  | Lcd20x2
  | Lcd16x2
  | Lcd16x4
  | Lcd8x2
  | Lcd40x2
  | Lcd40x4
deriving DecidableEq, Repr, Fintype

/-- Row count per display type (`LcdDisplayType::rows`). -/
def LcdDisplayType.rows : LcdDisplayType → Nat
  | .Lcd20x4 => 4
  | .Lcd20x2 => 2
  | .Lcd16x2 => 2
  | .Lcd16x4 => 4
  | .Lcd8x2 => 2
  | .Lcd40x2 => 2
  | .Lcd40x4 => 4

/-- Column count per display type (`LcdDisplayType::cols`). -/
def LcdDisplayType.cols : LcdDisplayType → Nat
  | .Lcd20x4 => 20
  | .Lcd20x2 => 20
  | .Lcd16x2 => 16
  | .Lcd16x4 => 16
  | .Lcd8x2 => 8
  | .Lcd40x2 => 40
  | .Lcd40x4 => 40

/-- Per-row DDRAM offset table per display type (`LcdDisplayType::row_offsets`). -/
def LcdDisplayType.row_offsets : LcdDisplayType → List Nat
  | .Lcd20x4 => [0x00, 0x40, 0x14, 0x54]
  | .Lcd20x2 => [0x00, 0x40, 0x00, 0x40]
  | .Lcd16x2 => [0x00, 0x40, 0x10, 0x50]
  | .Lcd16x4 => [0x00, 0x40, 0x10, 0x50]
  | .Lcd8x2 => [0x00, 0x40, 0x00, 0x40]
  | .Lcd40x2 => [0x00, 0x40, 0x00, 0x40]
  | .Lcd40x4 => [0x00, 0x40, 0x00, 0x40]

/-! ## LCD command and flag constants (from `hd44780.rs`) -/

def LCD_CMD_CLEARDISPLAY : Nat := 0x01
def LCD_CMD_RETURNHOME : Nat := 0x02
def LCD_CMD_ENTRYMODESET : Nat := 0x04
def LCD_CMD_DISPLAYCONTROL : Nat := 0x08
def LCD_CMD_CURSORSHIFT : Nat := 0x10
def LCD_CMD_FUNCTIONSET : Nat := 0x20
def LCD_CMD_SETCGRAMADDR : Nat := 0x40
def LCD_CMD_SETDDRAMADDR : Nat := 0x80

def LCD_FLAG_ENTRYRIGHT : Nat := 0x00
def LCD_FLAG_ENTRYLEFT : Nat := 0x02
def LCD_FLAG_ENTRYSHIFTINCREMENT : Nat := 0x01
def LCD_FLAG_ENTRYSHIFTDECREMENT : Nat := 0x00

def LCD_FLAG_DISPLAYON : Nat := 0x04
def LCD_FLAG_CURSORON : Nat := 0x02
def LCD_FLAG_CURSOROFF : Nat := 0x00
def LCD_FLAG_BLINKON : Nat := 0x01
def LCD_FLAG_BLINKOFF : Nat := 0x00

def LCD_FLAG_DISPLAYMOVE : Nat := 0x08
def LCD_FLAG_MOVERIGHT : Nat := 0x04
def LCD_FLAG_MOVELEFT : Nat := 0x00

def LCD_FLAG_4BITMODE : Nat := 0x00
def LCD_FLAG_2LINE : Nat := 0x08
def LCD_FLAG_5x8_DOTS : Nat := 0x00

/-! ## Bitfield encoders

The `bitfield!` macro in the source packs logical signal fields into one
byte.  Each field is held separately here (masked exactly as the crate's
generated setters mask), and `bits` performs the packing at the source's
fixed bit positions. -/

/-- Bitfield of the generic PCF8574T adapter:
bit 0 = RS, bit 1 = RW, bit 2 = ENABLE, bit 3 = BACKLIGHT, bits 7..4 = DATA. -/
structure GenericPCF8574TBitField where
  rs : Nat
  rw : Nat
  enable : Nat
  backlight : Nat
  data : Nat
deriving DecidableEq, Repr

namespace GenericPCF8574TBitField

def set_rs (s : GenericPCF8574TBitField) (v : Nat) : GenericPCF8574TBitField :=
  { s with rs := v &&& 1 }

def set_rw (s : GenericPCF8574TBitField) (v : Nat) : GenericPCF8574TBitField :=
  { s with rw := v &&& 1 }

def set_enable (s : GenericPCF8574TBitField) (v : Nat) : GenericPCF8574TBitField :=
  { s with enable := v &&& 1 }

def set_backlight (s : GenericPCF8574TBitField) (v : Nat) : GenericPCF8574TBitField :=
  { s with backlight := v &&& 1 }

def set_data (s : GenericPCF8574TBitField) (v : Nat) : GenericPCF8574TBitField :=
  { s with data := v &&& 0x0F }

/-- Pack the fields into the adapter's byte, at the source's bit positions. -/
def bits (s : GenericPCF8574TBitField) : Nat :=
  s.rs ||| (s.rw <<< 1) ||| (s.enable <<< 2) ||| (s.backlight <<< 3) ||| (s.data <<< 4)

end GenericPCF8574TBitField

/-- `GenericPCF8574TBitField(byte).data()`: the DATA field of a raw byte read
back from the bus, i.e. its high nibble. -/
def data_field_of_byte (b : Nat) : Nat := (b >>> 4) &&& 0x0F

/-- Bitfield of the dual-controller PCF8574T adapter:
bit 0 = RS, bit 1 = ENABLE2, bit 2 = ENABLE1, bit 3 = BACKLIGHT,
bits 7..4 = DATA.  No RW line. -/
structure DualHD44780_PCF8574TBitField where
  rs : Nat
  enable2 : Nat
  enable1 : Nat
  backlight : Nat
  data : Nat
deriving DecidableEq, Repr

namespace DualHD44780_PCF8574TBitField

def set_rs (s : DualHD44780_PCF8574TBitField) (v : Nat) : DualHD44780_PCF8574TBitField :=
  { s with rs := v &&& 1 }

def set_enable2 (s : DualHD44780_PCF8574TBitField) (v : Nat) : DualHD44780_PCF8574TBitField :=
  { s with enable2 := v &&& 1 }

def set_enable1 (s : DualHD44780_PCF8574TBitField) (v : Nat) : DualHD44780_PCF8574TBitField :=
  { s with enable1 := v &&& 1 }

def set_backlight (s : DualHD44780_PCF8574TBitField) (v : Nat) : DualHD44780_PCF8574TBitField :=
  { s with backlight := v &&& 1 }

def set_data (s : DualHD44780_PCF8574TBitField) (v : Nat) : DualHD44780_PCF8574TBitField :=
  { s with data := v &&& 0x0F }

def bits (s : DualHD44780_PCF8574TBitField) : Nat :=
  s.rs ||| (s.enable2 <<< 1) ||| (s.enable1 <<< 2) ||| (s.backlight <<< 3) ||| (s.data <<< 4)

end DualHD44780_PCF8574TBitField

/-- Bitfield of the Adafruit MCP23008 backpack:
bit 1 = RS, bit 2 = ENABLE, bits 6..3 = DATA, bit 7 = BACKLIGHT.  No RW line. -/
structure AdafruitLCDBackpackBitField where
  rs : Nat
  enable : Nat
  backlight : Nat
  data : Nat
deriving DecidableEq, Repr

namespace AdafruitLCDBackpackBitField

def set_rs (s : AdafruitLCDBackpackBitField) (v : Nat) : AdafruitLCDBackpackBitField :=
  { s with rs := v &&& 1 }

def set_enable (s : AdafruitLCDBackpackBitField) (v : Nat) : AdafruitLCDBackpackBitField :=
  { s with enable := v &&& 1 }

def set_backlight (s : AdafruitLCDBackpackBitField) (v : Nat) : AdafruitLCDBackpackBitField :=
  { s with backlight := v &&& 1 }

def set_data (s : AdafruitLCDBackpackBitField) (v : Nat) : AdafruitLCDBackpackBitField :=
  { s with data := v &&& 0x0F }

def bits (s : AdafruitLCDBackpackBitField) : Nat :=
  (s.rs <<< 1) ||| (s.enable <<< 2) ||| (s.backlight <<< 7) ||| (s.data <<< 3)

end AdafruitLCDBackpackBitField

/-! ## Adapter operations

`AdapterOps` gathers, per adapter, the pin setters over the adapter's
bitfield state, the bus framing of one state write, and the capability and
routing queries of `HD44780AdapterTrait` / `DeviceHardwareTrait`. -/

structure AdapterOps (σ : Type) where
  addr : Nat
  frame : σ → List Nat
  setRs : σ → Bool → σ
  setRw : σ → Bool → σ
  setEnable : σ → Bool → Nat → Except CharacterDisplayError Unit × σ
  setData : σ → Nat → σ
  setBacklightBit : σ → Bool → σ
  controllerCount : Nat
  maxControllerCount : Nat
  rowToControllerRow : Nat → Nat × Nat
  supportsReads : Bool
  isSupported : LcdDisplayType → Bool

/-- `GenericPCF8574TAdapter::is_supported`. -/
def GenericPCF8574TAdapter.is_supported (t : LcdDisplayType) : Bool :=
  t != LcdDisplayType.Lcd40x4

/-- `DualHD44780_PCF8574TAdapter::is_supported`. -/
def DualHD44780_PCF8574TAdapter.is_supported (t : LcdDisplayType) : Bool :=
  t == LcdDisplayType.Lcd40x4

/-- `AdafruitLCDBackpackAdapter::is_supported`. -/
def AdafruitLCDBackpackAdapter.is_supported (t : LcdDisplayType) : Bool :=
  t != LcdDisplayType.Lcd40x4

/-- Operations of the generic PCF8574T adapter (`generic_pcf8574t.rs`),
at bus address `addr`. -/
def genericOps (addr : Nat) : AdapterOps GenericPCF8574TBitField where
  addr := addr
  frame s := [s.bits]
  setRs s v := s.set_rs v.toNat
  setRw s v := s.set_rw v.toNat
  setEnable s v controller :=
    if controller ≠ 0 then (.error .BadDeviceId, s)
    else (.ok (), s.set_enable v.toNat)
  setData s v := s.set_data v
  setBacklightBit s v := s.set_backlight v.toNat
  controllerCount := 1
  maxControllerCount := 1
  rowToControllerRow row := (0, row)
  supportsReads := true
  isSupported := GenericPCF8574TAdapter.is_supported

/-- Operations of the dual-controller PCF8574T adapter
(`dual_controller_pcf8574t.rs`), at bus address `addr`. -/
def dualOps (addr : Nat) : AdapterOps DualHD44780_PCF8574TBitField where
  addr := addr
  frame s := [s.bits]
  setRs s v := s.set_rs v.toNat
  setRw s _ := s
  setEnable s v controller :=
    if controller = 0 then (.ok (), s.set_enable1 v.toNat)
    else if controller = 1 then (.ok (), s.set_enable2 v.toNat)
    else (.error .BadDeviceId, s)
  setData s v := s.set_data v
  setBacklightBit s v := s.set_backlight v.toNat
  controllerCount := 2
  maxControllerCount := 2
  rowToControllerRow row := if row < 2 then (0, row) else (1, row - 2)
  supportsReads := false
  isSupported := DualHD44780_PCF8574TAdapter.is_supported

/-- Operations of the Adafruit MCP23008 backpack adapter
(`adafruit_lcd_backpack.rs`), at bus address `addr`.  One bus write is the
two-byte frame `[0x09, state]` (GPIO register address then state). -/
def adafruitOps (addr : Nat) : AdapterOps AdafruitLCDBackpackBitField where
  addr := addr
  frame s := [0x09, s.bits]
  setRs s v := s.set_rs v.toNat
  setRw s _ := s
  setEnable s v controller :=
    if controller ≠ 0 then (.error .BadDeviceId, s)
    else (.ok (), s.set_enable v.toNat)
  setData s v := s.set_data v
  setBacklightBit s v := s.set_backlight v.toNat
  controllerCount := 1
  maxControllerCount := 1
  rowToControllerRow row := (0, row)
  supportsReads := false
  isSupported := AdafruitLCDBackpackAdapter.is_supported

/-! ## Nibble/byte write protocol (`HD44780AdapterTrait` defaults) -/

/-- `write_bits_to_gpio`: the single bus write of the encoded current state. -/
def write_bits_to_gpio {σ : Type} (D : AdapterOps σ) (s : σ) : List BusOp :=
  [.busWrite D.addr (D.frame s)]

/-- `write_nibble_to_controller`: set RS/RW, set DATA to the low nibble of
`value`, assert ENABLE for `controller`, write state, deassert ENABLE,
write state again.  Returns the result, the new adapter state, and the bus
trace. -/
def write_nibble_to_controller {σ : Type} (D : AdapterOps σ) (s : σ)
    (controller : Nat) (rs_setting : Bool) (value : Nat) :
    Except CharacterDisplayError Unit × σ × List BusOp :=
  let s := D.setRs s rs_setting
  let s := D.setRw s false
  let s := D.setData s (value &&& 0x0F)
  match D.setEnable s true controller with
  | (.error e, s) => (.error e, s, [])
  | (.ok _, s) =>
    let t1 := write_bits_to_gpio D s
    match D.setEnable s false controller with
    | (.error e, s') => (.error e, s', t1)
    | (.ok _, s') => (.ok (), s', t1 ++ write_bits_to_gpio D s')

/-- `write_byte_to_controller`: nibble write of `value >> 4` then nibble
write of `value & 0x0F`, same RS and controller for both. -/
def write_byte_to_controller {σ : Type} (D : AdapterOps σ) (s : σ)
    (controller : Nat) (rs_setting : Bool) (value : Nat) :
    Except CharacterDisplayError Unit × σ × List BusOp :=
  match write_nibble_to_controller D s controller rs_setting (value >>> 4) with
  | (.error e, s, t) => (.error e, s, t)
  | (.ok _, s, t) =>
    let (r, s', t2) := write_nibble_to_controller D s controller rs_setting (value &&& 0x0F)
    (r, s', t ++ t2)

/-- `send_command_to_controller`: a byte write with RS = 0. -/
def send_command_to_controller {σ : Type} (D : AdapterOps σ) (s : σ)
    (controller : Nat) (command : Nat) :
    Except CharacterDisplayError Unit × σ × List BusOp :=
  write_byte_to_controller D s controller false command

/-! ## Busy-flag / read protocol of the generic PCF8574T adapter
(`generic_pcf8574t.rs`)

Bus reads are fed from a `script` of response bytes; each function returns
the unconsumed remainder of the script.  `none` means the model ran out of
script bytes or poll fuel, not a behaviour of the source. -/

/-- `GenericPCF8574TAdapter::is_busy`: one busy-flag poll.  Clones the
current bitfield state, drives DATA to all ones with RS = 0, RW = 1,
strobes ENABLE for the high nibble (capturing one read) and once more for
the discarded low nibble.  The busy answer is bit 3 of the DATA field of
the byte read back. -/
def is_busy (addr : Nat) (s : GenericPCF8574TBitField) (script : List Nat) :
    Option (Bool × List Nat × List BusOp) :=
  let setup := ((((s.set_data 0b1111).set_rs 0).set_rw 1).set_enable 0)
  let t0 := [BusOp.busWrite addr [setup.bits]]
  let setupOn := setup.set_enable 1
  let t1 := [BusOp.busWrite addr [setupOn.bits]]
  match script with
  | [] => none
  | b :: rest =>
    let setupOff := setupOn.set_enable 0
    let setupOn2 := setupOff.set_enable 1
    let setupOff2 := setupOn2.set_enable 0
    some (((data_field_of_byte b) &&& 0b1000) != 0, rest,
      t0 ++ t1 ++ [BusOp.busRead addr b] ++
        [BusOp.busWrite addr [setupOff.bits]] ++
        [BusOp.busWrite addr [setupOn2.bits]] ++
        [BusOp.busWrite addr [setupOff2.bits]])

/-- The `while self.is_busy()? {}` loop of `read_bytes_from_controller`,
with explicit fuel. -/
def wait_not_busy (addr : Nat) (s : GenericPCF8574TBitField) :
    Nat → List Nat → Option (List Nat × List BusOp)
  | 0, _ => none
  | fuel + 1, script =>
    match is_busy addr s script with
    | none => none
    | some (busy, script', t) =>
      if busy then
        match wait_not_busy addr s fuel script' with
        | none => none
        | some (script'', t2) => some (script'', t ++ t2)
      else some (script', t)

/-- The per-byte loop of `read_bytes_from_controller`: for each output byte,
strobe ENABLE and read the high nibble, strobe again and read the low
nibble, and combine them as `(high << 4) | (low & 0x0F)` out of the DATA
bit positions of the bytes returned on the bus. -/
def read_nibbles_loop (addr : Nat) (data_cntl : GenericPCF8574TBitField) :
    Nat → List Nat → Option (List Nat × List Nat × List BusOp)
  | 0, script => some ([], script, [])
  | n + 1, script =>
    let cntlOn := data_cntl.set_enable 1
    match script with
    | [] => none
    | hi :: script =>
      let cntlOff := cntlOn.set_enable 0
      match script with
      | [] => none
      | lo :: script =>
        let byte := ((data_field_of_byte hi) <<< 4) ||| ((data_field_of_byte lo) &&& 0x0F)
        match read_nibbles_loop addr data_cntl n script with
        | none => none
        | some (bytes, script', t) =>
          some (byte :: bytes, script',
            [BusOp.busWrite addr [cntlOn.bits], BusOp.busRead addr hi,
             BusOp.busWrite addr [cntlOff.bits],
             BusOp.busWrite addr [cntlOn.bits], BusOp.busRead addr lo,
             BusOp.busWrite addr [cntlOff.bits]] ++ t)

/-- `GenericPCF8574TAdapter::read_bytes_from_controller`: reject any
controller other than 0, poll the busy flag until clear, program the
expander for reading (DATA all ones, ENABLE low, RS as requested, RW = 1)
with one bus write, then read `n` bytes nibble-pair-wise. -/
def read_bytes_from_controller (addr : Nat) (s : GenericPCF8574TBitField)
    (controller : Nat) (rs_setting : Bool) (n : Nat) (script : List Nat) (fuel : Nat) :
    Option (Except CharacterDisplayError (List Nat) × List Nat × List BusOp) :=
  if controller ≠ 0 then some (.error .BadDeviceId, script, [])
  else
    match wait_not_busy addr s fuel script with
    | none => none
    | some (script, t0) =>
      let data_cntl := (((s.set_data 0b1111).set_enable 0).set_rs rs_setting.toNat).set_rw 1
      let tSetup := [BusOp.busWrite addr [data_cntl.bits]]
      match read_nibbles_loop addr data_cntl n script with
      | none => none
      | some (bytes, script, t1) => some (.ok bytes, script, t0 ++ tSetup ++ t1)

/-- The trait-default `read_bytes_from_controller`, which the source leaves
`unimplemented!` for the dual-controller and Adafruit adapters; it is never
reached because `supports_reads()` is checked first. -/
def read_bytes_unimplemented (_controller : Nat) (_rs_setting : Bool) (_n : Nat)
    (_script : List Nat) (_fuel : Nat) :
    Option (Except CharacterDisplayError (List Nat) × List Nat × List BusOp) :=
  none

/-! ## Controller state machine (`hd44780.rs`) -/

/-- The number of HD44780 controllers that can be supported on one device. -/
def MAX_CONTROLLER_COUNT : Nat := 2

/-- Per-driver mode state: the three mode bytes per controller
(fixed-size arrays of `MAX_CONTROLLER_COUNT = 2` entries, modelled as
pairs) and the active controller index. -/
structure HD44780State where
  display_function : Nat × Nat
  display_control : Nat × Nat
  display_mode : Nat × Nat
  active_controller : Nat
deriving DecidableEq, Repr

/-- `HD44780::default()`: zeroed mode bytes, active controller 0. -/
def HD44780State.default : HD44780State :=
  { display_function := (0, 0), display_control := (0, 0),
    display_mode := (0, 0), active_controller := 0 }

/-- Read entry `i` of a 2-entry array (used only at indices 0 and 1). -/
def aget (a : Nat × Nat) (i : Nat) : Nat :=
  if i = 0 then a.1 else a.2

/-- Write entry `i` of a 2-entry array (used only at indices 0 and 1). -/
def aset (a : Nat × Nat) (i : Nat) (v : Nat) : Nat × Nat :=
  if i = 0 then (v, a.2) else (a.1, v)

/-- Result of one driver operation: outcome, updated driver plus adapter
state, and the bus trace it issued (also on the error path, since traffic
already issued before an error remains on the bus). -/
abbrev DriverStep (σ : Type) :=
  Except CharacterDisplayError Unit × (HD44780State × σ) × List BusOp

/-- Sequencing of the source's `for … in … { step? }` loops: run `f` on each
element in order, short-circuiting on the first error, concatenating
traces. -/
def runSeq {σ α : Type} (xs : List α)
    (f : α → HD44780State × σ → DriverStep σ) (st : HD44780State × σ) :
    DriverStep σ :=
  match xs with
  | [] => (.ok (), st, [])
  | x :: rest =>
    match f x st with
    | (.error e, st', t) => (.error e, st', t)
    | (.ok _, st', t) =>
      let (r, st'', t2) := runSeq rest f st'
      (r, st'', t ++ t2)

/-- `init_display_state`: record the three mode bytes for every controller
and reset the active controller to 0. -/
def init_display_state {σ : Type} (D : AdapterOps σ)
    (st : HD44780State) (s : σ)
    (display_function display_control display_mode : Nat) : DriverStep σ :=
  let st := (List.range D.controllerCount).foldl
    (fun st controller =>
      { st with
        display_function := aset st.display_function controller display_function
        display_control := aset st.display_control controller display_control
        display_mode := aset st.display_mode controller display_mode })
    st
  (.ok (), ({ st with active_controller := 0 }, s), [])

/-- `clear_controller`: CLEAR-DISPLAY command to one controller (the 2 ms
settle delay is not bus traffic and is not modelled). -/
def clear_controller {σ : Type} (D : AdapterOps σ) (st : HD44780State) (s : σ)
    (controller : Nat) : DriverStep σ :=
  let (r, s', t) := send_command_to_controller D s controller LCD_CMD_CLEARDISPLAY
  (r, (st, s'), t)

/-- `home_controller`: RETURN-HOME command to one controller. -/
def home_controller {σ : Type} (D : AdapterOps σ) (st : HD44780State) (s : σ)
    (controller : Nat) : DriverStep σ :=
  let (r, s', t) := send_command_to_controller D s controller LCD_CMD_RETURNHOME
  (r, (st, s'), t)

/-- `set_cursor_controller`: bounds-check `col`/`row` against the geometry,
then SET-DDRAM-ADDR with `col + row_offsets[row]`. -/
def set_cursor_controller {σ : Type} (D : AdapterOps σ) (lcd : LcdDisplayType)
    (st : HD44780State) (s : σ) (controller col row : Nat) : DriverStep σ :=
  if lcd.rows ≤ row then (.error .RowOutOfRange, (st, s), [])
  else if lcd.cols ≤ col then (.error .ColumnOutOfRange, (st, s), [])
  else
    let (r, s', t) := send_command_to_controller D s controller
      (LCD_CMD_SETDDRAMADDR ||| (col + (lcd.row_offsets.getD row 0)))
    (r, (st, s'), t)

/-- `show_cursor_controller`: update the cursor-on bit of the controller's
control byte, then DISPLAY-CONTROL with the updated byte. -/
def show_cursor_controller {σ : Type} (D : AdapterOps σ) (st : HD44780State)
    (s : σ) (controller : Nat) (show_cursor : Bool) : DriverStep σ :=
  let ctrl :=
    if show_cursor then aget st.display_control controller ||| LCD_FLAG_CURSORON
    else aget st.display_control controller &&& (0xFF ^^^ LCD_FLAG_CURSORON)
  let st := { st with display_control := aset st.display_control controller ctrl }
  let (r, s', t) := send_command_to_controller D s controller
    (LCD_CMD_DISPLAYCONTROL ||| aget st.display_control controller)
  (r, (st, s'), t)

/-- `blink_cursor_controller`: like `show_cursor_controller` for the blink
bit. -/
def blink_cursor_controller {σ : Type} (D : AdapterOps σ) (st : HD44780State)
    (s : σ) (controller : Nat) (blink_cursor : Bool) : DriverStep σ :=
  let ctrl :=
    if blink_cursor then aget st.display_control controller ||| LCD_FLAG_BLINKON
    else aget st.display_control controller &&& (0xFF ^^^ LCD_FLAG_BLINKON)
  let st := { st with display_control := aset st.display_control controller ctrl }
  let (r, s', t) := send_command_to_controller D s controller
    (LCD_CMD_DISPLAYCONTROL ||| aget st.display_control controller)
  (r, (st, s'), t)

/-- `show_display_controller`: like `show_cursor_controller` for the
display-on bit. -/
def show_display_controller {σ : Type} (D : AdapterOps σ) (st : HD44780State)
    (s : σ) (controller : Nat) (show_display : Bool) : DriverStep σ :=
  let ctrl :=
    if show_display then aget st.display_control controller ||| LCD_FLAG_DISPLAYON
    else aget st.display_control controller &&& (0xFF ^^^ LCD_FLAG_DISPLAYON)
  let st := { st with display_control := aset st.display_control controller ctrl }
  let (r, s', t) := send_command_to_controller D s controller
    (LCD_CMD_DISPLAYCONTROL ||| aget st.display_control controller)
  (r, (st, s'), t)

/-- `scroll_display_left_controller`. -/
def scroll_display_left_controller {σ : Type} (D : AdapterOps σ)
    (st : HD44780State) (s : σ) (controller : Nat) : DriverStep σ :=
  let (r, s', t) := send_command_to_controller D s controller
    (LCD_CMD_CURSORSHIFT ||| LCD_FLAG_DISPLAYMOVE ||| LCD_FLAG_MOVELEFT)
  (r, (st, s'), t)

/-- `scroll_display_right_controller`. -/
def scroll_display_right_controller {σ : Type} (D : AdapterOps σ)
    (st : HD44780State) (s : σ) (controller : Nat) : DriverStep σ :=
  let (r, s', t) := send_command_to_controller D s controller
    (LCD_CMD_CURSORSHIFT ||| LCD_FLAG_DISPLAYMOVE ||| LCD_FLAG_MOVERIGHT)
  (r, (st, s'), t)

/-- `left_to_right_controller`: OR the entry-left flag (0x02) into the
controller's entry-mode byte and issue ENTRY-MODE-SET with it. -/
def left_to_right_controller {σ : Type} (D : AdapterOps σ) (st : HD44780State)
    (s : σ) (controller : Nat) : DriverStep σ :=
  let st := { st with display_mode := (aset st.display_mode controller
      (aget st.display_mode controller ||| LCD_FLAG_ENTRYLEFT)) }
  let (r, s', t) := send_command_to_controller D s controller
    (LCD_CMD_ENTRYMODESET ||| aget st.display_mode controller)
  (r, (st, s'), t)

/-- `right_to_left_controller`: OR the entry-right flag (0x00) into the
controller's entry-mode byte and issue ENTRY-MODE-SET with it. -/
def right_to_left_controller {σ : Type} (D : AdapterOps σ) (st : HD44780State)
    (s : σ) (controller : Nat) : DriverStep σ :=
  let st := { st with display_mode := (aset st.display_mode controller
      (aget st.display_mode controller ||| LCD_FLAG_ENTRYRIGHT)) }
  let (r, s', t) := send_command_to_controller D s controller
    (LCD_CMD_ENTRYMODESET ||| aget st.display_mode controller)
  (r, (st, s'), t)

/-- `autoscroll_controller`: set or clear the shift-increment flag of the
entry-mode byte and issue ENTRY-MODE-SET with it. -/
def autoscroll_controller {σ : Type} (D : AdapterOps σ) (st : HD44780State)
    (s : σ) (controller : Nat) (autoscroll : Bool) : DriverStep σ :=
  let mode :=
    if autoscroll then aget st.display_mode controller ||| LCD_FLAG_ENTRYSHIFTINCREMENT
    else aget st.display_mode controller &&& (0xFF ^^^ LCD_FLAG_ENTRYSHIFTINCREMENT)
  let st := { st with display_mode := aset st.display_mode controller mode }
  let (r, s', t) := send_command_to_controller D s controller
    (LCD_CMD_ENTRYMODESET ||| aget st.display_mode controller)
  (r, (st, s'), t)

/-- `create_char_controller`: SET-CGRAM-ADDR then the eight character rows
as data writes. -/
def create_char_controller {σ : Type} (D : AdapterOps σ) (st : HD44780State)
    (s : σ) (controller : Nat) (location : Nat) (charmap : List Nat) : DriverStep σ :=
  match send_command_to_controller D s controller
      (LCD_CMD_SETCGRAMADDR ||| ((location &&& 0x7) <<< 3)) with
  | (.error e, s', t) => (.error e, (st, s'), t)
  | (.ok _, s', t) =>
    let (r, st'', t2) := runSeq charmap
      (fun byte (st, s) =>
        let (r, s', t) := write_byte_to_controller D s controller true byte
        (r, (st, s'), t))
      (st, s')
    (r, st'', t ++ t2)

/-- `print_controller`: each character byte as a data write to the given
controller. -/
def print_controller {σ : Type} (D : AdapterOps σ) (st : HD44780State) (s : σ)
    (controller : Nat) (text : List Nat) : DriverStep σ :=
  runSeq text
    (fun c (st, s) =>
      let (r, s', t) := write_byte_to_controller D s controller true c
      (r, (st, s'), t))
    (st, s)

/-- `clear`: clear every controller. -/
def clear {σ : Type} (D : AdapterOps σ) (st : HD44780State) (s : σ) : DriverStep σ :=
  runSeq (List.range D.controllerCount)
    (fun controller (st, s) => clear_controller D st s controller) (st, s)

/-- `home`: RETURN-HOME on controller 0, then reset the active controller
to 0. -/
def home {σ : Type} (D : AdapterOps σ) (st : HD44780State) (s : σ) : DriverStep σ :=
  match home_controller D st s 0 with
  | (.error e, st', t) => (.error e, st', t)
  | (.ok _, (st', s'), t) => (.ok (), ({ st' with active_controller := 0 }, s'), t)

/-- `set_cursor`: bounds-check against the geometry, resolve
`(controller, controller_row)` through the adapter's row mapping, make that
controller active, and position the cursor on it. -/
def set_cursor {σ : Type} (D : AdapterOps σ) (lcd : LcdDisplayType)
    (st : HD44780State) (s : σ) (col row : Nat) : DriverStep σ :=
  if lcd.rows ≤ row then (.error .RowOutOfRange, (st, s), [])
  else if lcd.cols ≤ col then (.error .ColumnOutOfRange, (st, s), [])
  else
    let (controller, controller_row) := D.rowToControllerRow row
    let st := { st with active_controller := controller }
    set_cursor_controller D lcd st s st.active_controller col controller_row

/-- `show_cursor`: the requested cursor visibility on the active controller,
forced off on every other controller. -/
def show_cursor {σ : Type} (D : AdapterOps σ) (st : HD44780State) (s : σ)
    (sc : Bool) : DriverStep σ :=
  runSeq (List.range D.controllerCount)
    (fun controller (st, s) =>
      show_cursor_controller D st s controller
        (if controller = st.active_controller then sc else false))
    (st, s)

/-- `blink_cursor`: like `show_cursor` for blinking. -/
def blink_cursor {σ : Type} (D : AdapterOps σ) (st : HD44780State) (s : σ)
    (bc : Bool) : DriverStep σ :=
  runSeq (List.range D.controllerCount)
    (fun controller (st, s) =>
      blink_cursor_controller D st s controller
        (if controller = st.active_controller then bc else false))
    (st, s)

/-- `show_display`: fan out to every controller. -/
def show_display {σ : Type} (D : AdapterOps σ) (st : HD44780State) (s : σ)
    (sd : Bool) : DriverStep σ :=
  runSeq (List.range D.controllerCount)
    (fun controller (st, s) => show_display_controller D st s controller sd) (st, s)

/-- `scroll_left`: fan out to every controller. -/
def scroll_left {σ : Type} (D : AdapterOps σ) (st : HD44780State) (s : σ) : DriverStep σ :=
  runSeq (List.range D.controllerCount)
    (fun controller (st, s) => scroll_display_left_controller D st s controller) (st, s)

/-- `scroll_right`: fan out to every controller. -/
def scroll_right {σ : Type} (D : AdapterOps σ) (st : HD44780State) (s : σ) : DriverStep σ :=
  runSeq (List.range D.controllerCount)
    (fun controller (st, s) => scroll_display_right_controller D st s controller) (st, s)

/-- `left_to_right`: fan out to every controller. -/
def left_to_right {σ : Type} (D : AdapterOps σ) (st : HD44780State) (s : σ) : DriverStep σ :=
  runSeq (List.range D.controllerCount)
    (fun controller (st, s) => left_to_right_controller D st s controller) (st, s)

/-- `right_to_left`: fan out to every controller. -/
def right_to_left {σ : Type} (D : AdapterOps σ) (st : HD44780State) (s : σ) : DriverStep σ :=
  runSeq (List.range D.controllerCount)
    (fun controller (st, s) => right_to_left_controller D st s controller) (st, s)

/-- `autoscroll`: fan out to every controller. -/
def autoscroll {σ : Type} (D : AdapterOps σ) (st : HD44780State) (s : σ)
    (a : Bool) : DriverStep σ :=
  runSeq (List.range D.controllerCount)
    (fun controller (st, s) => autoscroll_controller D st s controller a) (st, s)

/-- `create_char`: fan out to every controller. -/
def create_char {σ : Type} (D : AdapterOps σ) (st : HD44780State) (s : σ)
    (location : Nat) (charmap : List Nat) : DriverStep σ :=
  runSeq (List.range D.controllerCount)
    (fun controller (st, s) => create_char_controller D st s controller location charmap)
    (st, s)

/-- `print`: print to the active controller only. -/
def print {σ : Type} (D : AdapterOps σ) (st : HD44780State) (s : σ)
    (text : List Nat) : DriverStep σ :=
  print_controller D st s st.active_controller text

/-- `backlight`: one bus write through the adapter, not tied to a
controller. -/
def backlight {σ : Type} (D : AdapterOps σ) (st : HD44780State) (s : σ)
    (value : Bool) : DriverStep σ :=
  let s := D.setBacklightBit s value
  (.ok (), (st, s), write_bits_to_gpio D s)

/-- `read_device_data` (`hd44780.rs`): reject unless the adapter supports
reads; otherwise delegate to the adapter's read protocol against the active
controller with RS = 1. -/
def read_device_data (supports : Bool)
    (readFn : Nat → Bool → Nat → List Nat → Nat →
      Option (Except CharacterDisplayError (List Nat) × List Nat × List BusOp))
    (active : Nat) (n : Nat) (script : List Nat) (fuel : Nat) :
    Option (Except CharacterDisplayError (List Nat) × List Nat × List BusOp) :=
  if !supports then some (.error .ReadNotSupported, script, [])
  else readFn active true n script fuel

/-- `read_address_counter` (`hd44780.rs`): reject unless the adapter
supports reads; otherwise read one byte with RS = 0 against the active
controller and mask off the busy flag. -/
def read_address_counter (supports : Bool)
    (readFn : Nat → Bool → Nat → List Nat → Nat →
      Option (Except CharacterDisplayError (List Nat) × List Nat × List BusOp))
    (active : Nat) (script : List Nat) (fuel : Nat) :
    Option (Except CharacterDisplayError Nat × List Nat × List BusOp) :=
  if !supports then some (.error .ReadNotSupported, script, [])
  else
    match readFn active false 1 script fuel with
    | none => none
    | some (.error e, script, t) => some (.error e, script, t)
    | some (.ok buffer, script, t) => some (.ok ((buffer.headD 0) &&& 0x7F), script, t)

/-- All modelled driver operations, used to state state-machine invariants
uniformly.  The read operations do not appear: in the source,
`read_device_data` takes `&self` and `read_address_counter` writes no
driver field, so neither can change `active_controller`. -/
inductive DriverOp where
  | opInitDisplayState (f c m : Nat)
  | opClear
  | opHome
  | opSetCursor (col row : Nat)
  | opShowCursor (b : Bool)
  | opBlinkCursor (b : Bool)
  | opShowDisplay (b : Bool)
  | opScrollLeft
  | opScrollRight
  | opLeftToRight
  | opRightToLeft
  | opAutoscroll (b : Bool)
  | opPrint (text : List Nat)
  | opBacklight (b : Bool)
  | opCreateChar (location : Nat) (charmap : List Nat)
deriving DecidableEq, Repr

/-- Dispatch a `DriverOp` to its model. -/
def applyOp {σ : Type} (D : AdapterOps σ) (lcd : LcdDisplayType)
    (op : DriverOp) (st : HD44780State × σ) : DriverStep σ :=
  match op with
  | .opInitDisplayState f c m => init_display_state D st.1 st.2 f c m
  | .opClear => clear D st.1 st.2
  | .opHome => home D st.1 st.2
  | .opSetCursor col row => set_cursor D lcd st.1 st.2 col row
  | .opShowCursor b => show_cursor D st.1 st.2 b
  | .opBlinkCursor b => blink_cursor D st.1 st.2 b
  | .opShowDisplay b => show_display D st.1 st.2 b
  | .opScrollLeft => scroll_left D st.1 st.2
  | .opScrollRight => scroll_right D st.1 st.2
  | .opLeftToRight => left_to_right D st.1 st.2
  | .opRightToLeft => right_to_left D st.1 st.2
  | .opAutoscroll b => autoscroll D st.1 st.2 b
  | .opPrint text => print D st.1 st.2 text
  | .opBacklight b => backlight D st.1 st.2 b
  | .opCreateChar location charmap => create_char D st.1 st.2 location charmap

/-! ## Shared helper definitions for the statements -/

/-- The expander state programmed for reading by
`read_bytes_from_controller`: DATA all ones, ENABLE low, RS as requested,
RW = 1. -/
def read_control_state (s : GenericPCF8574TBitField) (rs_setting : Bool) :
    GenericPCF8574TBitField :=
  (((s.set_data 0b1111).set_enable 0).set_rs rs_setting.toNat).set_rw 1

/-- The bus trace of one busy-flag poll when the initial state carries
backlight bit `bl` and the bus answers the byte `b`. -/
def busy_poll_trace (addr : Nat) (bl : Nat) (b : Nat) : List BusOp :=
  [.busWrite addr [GenericPCF8574TBitField.bits ⟨0, 1, 0, bl, 15⟩],
   .busWrite addr [GenericPCF8574TBitField.bits ⟨0, 1, 1, bl, 15⟩],
   .busRead addr b,
   .busWrite addr [GenericPCF8574TBitField.bits ⟨0, 1, 0, bl, 15⟩],
   .busWrite addr [GenericPCF8574TBitField.bits ⟨0, 1, 1, bl, 15⟩],
   .busWrite addr [GenericPCF8574TBitField.bits ⟨0, 1, 0, bl, 15⟩]]

/-- A bus-read script holding, per output byte, its high-nibble response
byte followed by its low-nibble response byte. -/
def nibble_pair_script : List (Nat × Nat) → List Nat
  | [] => []
  | (hi, lo) :: rest => hi :: lo :: nibble_pair_script rest

/-- The byte decoded from a pair of nibble-read response bytes: the DATA
field of the first is the high nibble, the DATA field of the second the low
nibble. -/
def decode_nibble_pair (p : Nat × Nat) : Nat :=
  ((data_field_of_byte p.1) <<< 4) ||| (data_field_of_byte p.2)

/-- The bus trace reading one byte as two nibbles with control state `dc`. -/
def byte_read_trace (addr : Nat) (dc : GenericPCF8574TBitField) (p : Nat × Nat) :
    List BusOp :=
  [.busWrite addr [(dc.set_enable 1).bits], .busRead addr p.1,
   .busWrite addr [((dc.set_enable 1).set_enable 0).bits],
   .busWrite addr [(dc.set_enable 1).bits], .busRead addr p.2,
   .busWrite addr [((dc.set_enable 1).set_enable 0).bits]]

/-- The generic PCF8574T adapter's read protocol, packaged in the shape the
driver's read operations consume (the driver is generic over the device). -/
def generic_read_fn (addr : Nat) (s : GenericPCF8574TBitField) :
    Nat → Bool → Nat → List Nat → Nat →
      Option (Except CharacterDisplayError (List Nat) × List Nat × List BusOp) :=
  fun controller rs_setting n script fuel =>
    read_bytes_from_controller addr s controller rs_setting n script fuel

/-! ## Helper lemmas -/

theorem and15_idem (x : Nat) : x &&& 15 &&& 15 = x &&& 15 := by
  rw [Nat.land_assoc, show (15 : Nat) &&& 15 = 15 from by decide]

theorem toNat_and_one (b : Bool) : b.toNat &&& 1 = b.toNat := by
  cases b <;> rfl

theorem aget_aset_same (a : Nat × Nat) (i : Nat) (v : Nat) :
    aget (aset a i v) i = v := by
  by_cases h : i = 0 <;> simp [aget, aset, h]

theorem aset_aget_self (a : Nat × Nat) (i : Nat) :
    aset a i (aget a i) = a := by
  by_cases h : i = 0 <;> simp [aget, aset, h]

theorem or_two_and_two (m : Nat) : (m ||| 2) &&& 2 = 2 := by
  have h2 : (2 : Nat) = 2 ^ 1 := rfl
  rw [h2, Nat.and_two_pow]
  simp [Nat.testBit_lor]
  right
  decide

/-! ## Claim theorems -/

/-- C5: for every SignalState of the generic PCF8574T adapter, the encoder
produces a single byte with bit 0 = RS, bit 1 = RW, bit 2 = ENABLE,
bit 3 = BACKLIGHT and bits 7..4 = the DATA nibble; and, the encoder being a
pure function of the state, encoding the same state repeatedly always
yields the identical byte. -/
theorem c5_generic_encoder_layout (rs rw enable backlight data : Nat)
    (h1 : rs < 2) (h2 : rw < 2) (h3 : enable < 2) (h4 : backlight < 2)
    (h5 : data < 16) :
    GenericPCF8574TBitField.bits ⟨rs, rw, enable, backlight, data⟩ &&& 1 = rs ∧
    (GenericPCF8574TBitField.bits ⟨rs, rw, enable, backlight, data⟩ >>> 1) &&& 1 = rw ∧
    (GenericPCF8574TBitField.bits ⟨rs, rw, enable, backlight, data⟩ >>> 2) &&& 1 = enable ∧
    (GenericPCF8574TBitField.bits ⟨rs, rw, enable, backlight, data⟩ >>> 3) &&& 1 = backlight ∧
    GenericPCF8574TBitField.bits ⟨rs, rw, enable, backlight, data⟩ >>> 4 = data ∧
    GenericPCF8574TBitField.bits ⟨rs, rw, enable, backlight, data⟩ < 256 ∧
    GenericPCF8574TBitField.bits ⟨rs, rw, enable, backlight, data⟩ =
      GenericPCF8574TBitField.bits ⟨rs, rw, enable, backlight, data⟩ := by
  interval_cases rs <;> interval_cases rw <;> interval_cases enable <;>
    interval_cases backlight <;> interval_cases data <;> decide

/-- Witness for C5 at a concrete state. -/
theorem c5_witness :
    GenericPCF8574TBitField.bits ⟨1, 0, 1, 1, 0b1010⟩ &&& 1 = 1 ∧
    (GenericPCF8574TBitField.bits ⟨1, 0, 1, 1, 0b1010⟩ >>> 1) &&& 1 = 0 ∧
    (GenericPCF8574TBitField.bits ⟨1, 0, 1, 1, 0b1010⟩ >>> 2) &&& 1 = 1 ∧
    (GenericPCF8574TBitField.bits ⟨1, 0, 1, 1, 0b1010⟩ >>> 3) &&& 1 = 1 ∧
    GenericPCF8574TBitField.bits ⟨1, 0, 1, 1, 0b1010⟩ >>> 4 = 0b1010 ∧
    GenericPCF8574TBitField.bits ⟨1, 0, 1, 1, 0b1010⟩ < 256 ∧
    GenericPCF8574TBitField.bits ⟨1, 0, 1, 1, 0b1010⟩ =
      GenericPCF8574TBitField.bits ⟨1, 0, 1, 1, 0b1010⟩ :=
  c5_generic_encoder_layout 1 0 1 1 0b1010 (by decide) (by decide) (by decide)
    (by decide) (by decide)

/-- C6: on every adapter, `set_enable(value, controller)` fails with
`BadDeviceId` for every controller index at or above the adapter's
controller count (1 for the generic and Adafruit adapters, 2 for the dual
adapter), and the adapter's bitfield state is returned unchanged in that
case. -/
theorem c6_set_enable_bad_controller (addr : Nat) (g : GenericPCF8574TBitField)
    (d : DualHD44780_PCF8574TBitField) (a : AdafruitLCDBackpackBitField)
    (v : Bool) (c : Nat) :
    ((genericOps addr).controllerCount = 1 ∧ (dualOps addr).controllerCount = 2 ∧
      (adafruitOps addr).controllerCount = 1) ∧
    (1 ≤ c → (genericOps addr).setEnable g v c = (.error .BadDeviceId, g)) ∧
    (2 ≤ c → (dualOps addr).setEnable d v c = (.error .BadDeviceId, d)) ∧
    (1 ≤ c → (adafruitOps addr).setEnable a v c = (.error .BadDeviceId, a)) := by
  refine ⟨⟨rfl, rfl, rfl⟩, fun hc => ?_, fun hc => ?_, fun hc => ?_⟩
  · simp only [genericOps]
    rw [if_pos (by omega)]
  · simp only [dualOps]
    rw [if_neg (by omega), if_neg (by omega)]
  · simp only [adafruitOps]
    rw [if_pos (by omega)]

/-- Witness for C6 at concrete out-of-range controller indices. -/
theorem c6_witness :
    (genericOps 0x27).setEnable ⟨0, 0, 0, 0, 0⟩ true 1 =
      (.error .BadDeviceId, (⟨0, 0, 0, 0, 0⟩ : GenericPCF8574TBitField)) ∧
    (dualOps 0x27).setEnable ⟨0, 0, 0, 0, 0⟩ true 2 =
      (.error .BadDeviceId, (⟨0, 0, 0, 0, 0⟩ : DualHD44780_PCF8574TBitField)) ∧
    (adafruitOps 0x20).setEnable ⟨0, 0, 0, 0⟩ true 1 =
      (.error .BadDeviceId, (⟨0, 0, 0, 0⟩ : AdafruitLCDBackpackBitField)) :=
  ⟨(c6_set_enable_bad_controller 0x27 ⟨0, 0, 0, 0, 0⟩ ⟨0, 0, 0, 0, 0⟩ ⟨0, 0, 0, 0⟩
      true 1).2.1 (by decide),
   (c6_set_enable_bad_controller 0x27 ⟨0, 0, 0, 0, 0⟩ ⟨0, 0, 0, 0, 0⟩ ⟨0, 0, 0, 0⟩
      true 2).2.2.1 (by decide),
   (c6_set_enable_bad_controller 0x20 ⟨0, 0, 0, 0, 0⟩ ⟨0, 0, 0, 0, 0⟩ ⟨0, 0, 0, 0⟩
      true 1).2.2.2 (by decide)⟩

/-- C8: the dual-controller adapter's compatibility check accepts exactly
the 40x4 geometry, while the generic PCF8574T and Adafruit backpack
adapters reject 40x4 and accept every other geometry. -/
theorem c8_is_supported_geometry :
    ∀ t : LcdDisplayType,
      (DualHD44780_PCF8574TAdapter.is_supported t = true ↔ t = .Lcd40x4) ∧
      (GenericPCF8574TAdapter.is_supported t = true ↔ t ≠ .Lcd40x4) ∧
      (AdafruitLCDBackpackAdapter.is_supported t = true ↔ t ≠ .Lcd40x4) := by
  decide

/-- C3 (amended): each busy-flag poll of the generic PCF8574T adapter
issues exactly a 5-write/1-read bus transaction sequence — setup write with
ENABLE low, write with ENABLE high, one read, then ENABLE low / high / low
writes — and the busy answer is bit 3 of the DATA (high-nibble) field of
the byte read back. -/
theorem c3_busy_poll_trace (addr : Nat) (s : GenericPCF8574TBitField)
    (b : Nat) (rest : List Nat) :
    is_busy addr s (b :: rest) =
      some (((data_field_of_byte b) &&& 0b1000) != 0, rest,
        busy_poll_trace addr s.backlight b) ∧
    countWrites (busy_poll_trace addr s.backlight b) = 5 ∧
    countReads (busy_poll_trace addr s.backlight b) = 1 := by
  exact ⟨rfl, rfl, rfl⟩

/-- C3 counterexample: at a concrete poll the trace contains 5 writes and
1 read, not the 6 writes the claim asserts. -/
theorem c3_counterexample :
    is_busy 0x27 ⟨0, 0, 0, 0, 0⟩ [0x26] =
      some (false, [],
        [.busWrite 0x27 [0xF2], .busWrite 0x27 [0xF6], .busRead 0x27 0x26,
         .busWrite 0x27 [0xF2], .busWrite 0x27 [0xF6], .busWrite 0x27 [0xF2]]) ∧
    countWrites
        [.busWrite 0x27 [0xF2], .busWrite 0x27 [0xF6], .busRead 0x27 0x26,
         .busWrite 0x27 [0xF2], .busWrite 0x27 [0xF6], .busWrite 0x27 [0xF2]] = 5 ∧
    (5 : Nat) ≠ 6 := by
  exact ⟨rfl, rfl, by decide⟩

/-- C1: writing a byte decomposes into two nibble writes — high nibble
first, then low nibble, with the same RS/RW/controller — and each nibble
write is exactly two bus writes, the first with ENABLE asserted for the
target controller and the second with ENABLE deasserted: exactly 4 bus
writes per byte on the single-byte-framed adapters (generic, controller 0;
dual, either controller). -/
theorem c1_write_byte_trace (addr : Nat) (gs : GenericPCF8574TBitField)
    (ds : DualHD44780_PCF8574TBitField) (rs : Bool) (v c : Nat) :
    (write_byte_to_controller (genericOps addr) gs 0 rs v =
      (.ok (), ⟨rs.toNat, 0, 0, gs.backlight, v &&& 0x0F⟩,
       [.busWrite addr [GenericPCF8574TBitField.bits
          ⟨rs.toNat, 0, 1, gs.backlight, (v >>> 4) &&& 0x0F⟩],
        .busWrite addr [GenericPCF8574TBitField.bits
          ⟨rs.toNat, 0, 0, gs.backlight, (v >>> 4) &&& 0x0F⟩],
        .busWrite addr [GenericPCF8574TBitField.bits
          ⟨rs.toNat, 0, 1, gs.backlight, v &&& 0x0F⟩],
        .busWrite addr [GenericPCF8574TBitField.bits
          ⟨rs.toNat, 0, 0, gs.backlight, v &&& 0x0F⟩]])) ∧
    (c = 0 →
      write_byte_to_controller (dualOps addr) ds c rs v =
        (.ok (), ⟨rs.toNat, ds.enable2, 0, ds.backlight, v &&& 0x0F⟩,
         [.busWrite addr [DualHD44780_PCF8574TBitField.bits
            ⟨rs.toNat, ds.enable2, 1, ds.backlight, (v >>> 4) &&& 0x0F⟩],
          .busWrite addr [DualHD44780_PCF8574TBitField.bits
            ⟨rs.toNat, ds.enable2, 0, ds.backlight, (v >>> 4) &&& 0x0F⟩],
          .busWrite addr [DualHD44780_PCF8574TBitField.bits
            ⟨rs.toNat, ds.enable2, 1, ds.backlight, v &&& 0x0F⟩],
          .busWrite addr [DualHD44780_PCF8574TBitField.bits
            ⟨rs.toNat, ds.enable2, 0, ds.backlight, v &&& 0x0F⟩]])) ∧
    (c = 1 →
      write_byte_to_controller (dualOps addr) ds c rs v =
        (.ok (), ⟨rs.toNat, 0, ds.enable1, ds.backlight, v &&& 0x0F⟩,
         [.busWrite addr [DualHD44780_PCF8574TBitField.bits
            ⟨rs.toNat, 1, ds.enable1, ds.backlight, (v >>> 4) &&& 0x0F⟩],
          .busWrite addr [DualHD44780_PCF8574TBitField.bits
            ⟨rs.toNat, 0, ds.enable1, ds.backlight, (v >>> 4) &&& 0x0F⟩],
          .busWrite addr [DualHD44780_PCF8574TBitField.bits
            ⟨rs.toNat, 1, ds.enable1, ds.backlight, v &&& 0x0F⟩],
          .busWrite addr [DualHD44780_PCF8574TBitField.bits
            ⟨rs.toNat, 0, ds.enable1, ds.backlight, v &&& 0x0F⟩]])) := by
  refine ⟨?_, fun hc => ?_, fun hc => ?_⟩ <;>
    subst_eqs <;>
    cases rs <;>
    simp [write_byte_to_controller, write_nibble_to_controller, write_bits_to_gpio,
      genericOps, dualOps, GenericPCF8574TBitField.set_rs,
      GenericPCF8574TBitField.set_rw, GenericPCF8574TBitField.set_enable,
      GenericPCF8574TBitField.set_data, DualHD44780_PCF8574TBitField.set_rs,
      DualHD44780_PCF8574TBitField.set_enable1,
      DualHD44780_PCF8574TBitField.set_enable2,
      DualHD44780_PCF8574TBitField.set_data, and15_idem]

/-- Witness for C1 at a concrete byte on the dual adapter's controller 1. -/
theorem c1_witness :
    write_byte_to_controller (dualOps 0x27) ⟨0, 0, 0, 0, 0⟩ 1 true 0xDE =
      (.ok (), ⟨1, 0, 0, 0, 0xE⟩,
       [.busWrite 0x27 [DualHD44780_PCF8574TBitField.bits ⟨1, 1, 0, 0, 0xD⟩],
        .busWrite 0x27 [DualHD44780_PCF8574TBitField.bits ⟨1, 0, 0, 0, 0xD⟩],
        .busWrite 0x27 [DualHD44780_PCF8574TBitField.bits ⟨1, 1, 0, 0, 0xE⟩],
        .busWrite 0x27 [DualHD44780_PCF8574TBitField.bits ⟨1, 0, 0, 0, 0xE⟩]]) :=
  (c1_write_byte_trace 0x27 ⟨0, 0, 0, 0, 0⟩ ⟨0, 0, 0, 0, 0⟩ true 0xDE 1).2.2 rfl

/-- C10: for every controller and prior entry-mode state,
`right_to_left_controller` leaves the whole driver state — in particular
the stored entry-mode byte — unchanged (it ORs in `LCD_FLAG_ENTRYRIGHT`,
whose value is 0x00) and issues ENTRY-MODE-SET with that unchanged byte;
consequently `left_to_right_controller` followed by
`right_to_left_controller` leaves the entry-mode byte with the entry-left
flag set: `right_to_left` never clears the left-to-right bit. -/
theorem c10_right_to_left_is_noop (σ : Type) (D : AdapterOps σ)
    (st : HD44780State) (s : σ) (controller : Nat) :
    (right_to_left_controller D st s controller =
      (let (r, s', t) := send_command_to_controller D s controller
          (LCD_CMD_ENTRYMODESET ||| aget st.display_mode controller)
       (r, (st, s'), t))) ∧
    ((right_to_left_controller D st s controller).2.1.1 = st) ∧
    ((right_to_left_controller D
        ((left_to_right_controller D st s controller).2.1.1)
        ((left_to_right_controller D st s controller).2.1.2)
        controller).2.1.1.display_mode =
      aset st.display_mode controller
        (aget st.display_mode controller ||| LCD_FLAG_ENTRYLEFT)) ∧
    (aget (aset st.display_mode controller
        (aget st.display_mode controller ||| LCD_FLAG_ENTRYLEFT)) controller &&&
      LCD_FLAG_ENTRYLEFT = LCD_FLAG_ENTRYLEFT) := by
  have hmode : ∀ a : Nat × Nat, ∀ i : Nat,
      aset a i (aget a i ||| LCD_FLAG_ENTRYRIGHT) = a := by
    intro a i
    simp [LCD_FLAG_ENTRYRIGHT, Nat.or_zero, aset_aget_self]
  refine ⟨?_, ?_, ?_, ?_⟩
  · simp [right_to_left_controller, hmode]
  · simp [right_to_left_controller, hmode]
  · simp [right_to_left_controller, left_to_right_controller, hmode]
  · rw [aget_aset_same, LCD_FLAG_ENTRYLEFT, or_two_and_two]

/-- C2: `set_cursor(col, row)` fails with `RowOutOfRange` for
`row >= geometry.rows` and with `ColumnOutOfRange` for in-range rows with
`col >= geometry.cols`, issuing no bus traffic and leaving the state
unchanged in both failure cases; on the dual-controller 40x4 adapter every
in-range row resolves to row 0 → (0,0), 1 → (0,1), 2 → (1,0), 3 → (1,1),
the resolved controller becomes the active controller, and the
SET-DDRAM-ADDR command is issued with address `col + row_offset[local_row]`
(offsets 0x00, 0x40, 0x00, 0x40). -/
theorem c2_set_cursor (σ : Type) (D : AdapterOps σ) (lcd : LcdDisplayType)
    (st : HD44780State) (s : σ) (addr col row : Nat)
    (st' : HD44780State) (ds : DualHD44780_PCF8574TBitField) :
    (lcd.rows ≤ row →
      set_cursor D lcd st s col row = (.error .RowOutOfRange, (st, s), [])) ∧
    (row < lcd.rows → lcd.cols ≤ col →
      set_cursor D lcd st s col row = (.error .ColumnOutOfRange, (st, s), [])) ∧
    (col < 40 →
      (set_cursor (dualOps addr) .Lcd40x4 st' ds col 0 =
        (let (r, s', t) := send_command_to_controller (dualOps addr) ds 0
            (LCD_CMD_SETDDRAMADDR ||| (col + 0x00))
         (r, ({ st' with active_controller := 0 }, s'), t))) ∧
      (set_cursor (dualOps addr) .Lcd40x4 st' ds col 1 =
        (let (r, s', t) := send_command_to_controller (dualOps addr) ds 0
            (LCD_CMD_SETDDRAMADDR ||| (col + 0x40))
         (r, ({ st' with active_controller := 0 }, s'), t))) ∧
      (set_cursor (dualOps addr) .Lcd40x4 st' ds col 2 =
        (let (r, s', t) := send_command_to_controller (dualOps addr) ds 1
            (LCD_CMD_SETDDRAMADDR ||| (col + 0x00))
         (r, ({ st' with active_controller := 1 }, s'), t))) ∧
      (set_cursor (dualOps addr) .Lcd40x4 st' ds col 3 =
        (let (r, s', t) := send_command_to_controller (dualOps addr) ds 1
            (LCD_CMD_SETDDRAMADDR ||| (col + 0x40))
         (r, ({ st' with active_controller := 1 }, s'), t)))) := by
  refine ⟨fun h1 => ?_, fun h1 h2 => ?_, fun hcol => ?_⟩
  · rw [set_cursor, if_pos h1]
  · rw [set_cursor, if_neg (by omega), if_pos h2]
  · have hc : ¬ ((LcdDisplayType.Lcd40x4).cols ≤ col) := by
      simp [LcdDisplayType.cols]; omega
    refine ⟨?_, ?_, ?_, ?_⟩ <;>
      (simp [set_cursor, set_cursor_controller, dualOps, LcdDisplayType.rows,
        LcdDisplayType.cols, LcdDisplayType.row_offsets, hc,
        Nat.not_le.mpr (show col < 40 from hcol)];
       try exact ⟨rfl, rfl, rfl⟩)

/-- Witness for C2 at concrete inputs. -/
theorem c2_witness :
    (set_cursor (dualOps 0x27) .Lcd40x4 HD44780State.default
        (⟨0, 0, 0, 0, 0⟩ : DualHD44780_PCF8574TBitField) 0 4 =
      (.error .RowOutOfRange,
       (HD44780State.default, (⟨0, 0, 0, 0, 0⟩ : DualHD44780_PCF8574TBitField)), [])) ∧
    (set_cursor (dualOps 0x27) .Lcd40x4 HD44780State.default
        (⟨0, 0, 0, 0, 0⟩ : DualHD44780_PCF8574TBitField) 10 2 =
      (let (r, s', t) := send_command_to_controller (dualOps 0x27)
          (⟨0, 0, 0, 0, 0⟩ : DualHD44780_PCF8574TBitField) 1
          (LCD_CMD_SETDDRAMADDR ||| (10 + 0x00))
       (r, ({ HD44780State.default with active_controller := 1 }, s'), t))) :=
  ⟨(c2_set_cursor DualHD44780_PCF8574TBitField (dualOps 0x27) .Lcd40x4
      HD44780State.default ⟨0, 0, 0, 0, 0⟩ 0x27 0 4 HD44780State.default
      ⟨0, 0, 0, 0, 0⟩).1 (by decide),
   ((c2_set_cursor DualHD44780_PCF8574TBitField (dualOps 0x27) .Lcd40x4
      HD44780State.default ⟨0, 0, 0, 0, 0⟩ 0x27 10 2 HD44780State.default
      ⟨0, 0, 0, 0, 0⟩).2.2 (by decide)).2.2.1⟩

/-- C7: `read_device_data` and `read_address_counter` fail with
`ReadNotSupported` whenever the adapter does not support reads (the dual
and Adafruit adapters), issuing no bus traffic; on the read-capable generic
adapter both delegate to the adapter's read protocol against the active
controller, and `read_address_counter` returns the read byte with the busy
bit masked off (`result & 0x7F`). -/
theorem c7_read_operations (addr active n fuel : Nat) (script : List Nat)
    (s : GenericPCF8574TBitField) :
    ((dualOps addr).supportsReads = false ∧
     (adafruitOps addr).supportsReads = false ∧
     (genericOps addr).supportsReads = true) ∧
    (read_device_data (dualOps addr).supportsReads read_bytes_unimplemented
        active n script fuel = some (.error .ReadNotSupported, script, [])) ∧
    (read_device_data (adafruitOps addr).supportsReads read_bytes_unimplemented
        active n script fuel = some (.error .ReadNotSupported, script, [])) ∧
    (read_address_counter (dualOps addr).supportsReads read_bytes_unimplemented
        active script fuel = some (.error .ReadNotSupported, script, [])) ∧
    (read_address_counter (adafruitOps addr).supportsReads read_bytes_unimplemented
        active script fuel = some (.error .ReadNotSupported, script, [])) ∧
    (read_device_data (genericOps addr).supportsReads (generic_read_fn addr s)
        active n script fuel =
      read_bytes_from_controller addr s active true n script fuel) ∧
    (∀ (bytes : List Nat) (script' : List Nat) (t : List BusOp),
      read_bytes_from_controller addr s active false 1 script fuel =
          some (.ok bytes, script', t) →
      read_address_counter (genericOps addr).supportsReads (generic_read_fn addr s)
          active script fuel = some (.ok ((bytes.headD 0) &&& 0x7F), script', t)) := by
  refine ⟨⟨rfl, rfl, rfl⟩, rfl, rfl, rfl, rfl, rfl, fun bytes script' t h => ?_⟩
  rw [read_address_counter]
  rw [show generic_read_fn addr s active false 1 script fuel =
      read_bytes_from_controller addr s active false 1 script fuel from rfl, h]
  rfl

/-- Witness for C7: the masking branch at a concrete scripted read, where
byte 0xDE comes back and 0x5E (busy bit stripped) is returned. -/
theorem c7_witness :
    read_address_counter (genericOps 0x27).supportsReads
        (generic_read_fn 0x27 ⟨0, 0, 0, 0, 0⟩) 0 [0x26, 0xD6, 0xE6] 1 =
      some (.ok (([(0xDE : Nat)].headD 0) &&& 0x7F), [],
        [.busWrite 0x27 [0xF2], .busWrite 0x27 [0xF6], .busRead 0x27 0x26,
         .busWrite 0x27 [0xF2], .busWrite 0x27 [0xF6], .busWrite 0x27 [0xF2],
         .busWrite 0x27 [0xF2], .busWrite 0x27 [0xF6], .busRead 0x27 0xD6,
         .busWrite 0x27 [0xF2], .busWrite 0x27 [0xF6], .busRead 0x27 0xE6,
         .busWrite 0x27 [0xF2]]) :=
  (c7_read_operations 0x27 0 1 1 [0x26, 0xD6, 0xE6] ⟨0, 0, 0, 0, 0⟩).2.2.2.2.2.2
    [0xDE] []
    [.busWrite 0x27 [0xF2], .busWrite 0x27 [0xF6], .busRead 0x27 0x26,
     .busWrite 0x27 [0xF2], .busWrite 0x27 [0xF6], .busWrite 0x27 [0xF2],
     .busWrite 0x27 [0xF2], .busWrite 0x27 [0xF6], .busRead 0x27 0xD6,
     .busWrite 0x27 [0xF2], .busWrite 0x27 [0xF6], .busRead 0x27 0xE6,
     .busWrite 0x27 [0xF2]] rfl

/-- The per-byte read loop decodes each scripted high/low nibble pair into
`(high << 4) | low` and issues, per byte, the 4-write/2-read strobe
sequence — with no busy poll in between. -/
theorem read_nibbles_loop_spec (addr : Nat) (dc : GenericPCF8574TBitField)
    (pairs : List (Nat × Nat)) :
    read_nibbles_loop addr dc pairs.length (nibble_pair_script pairs) =
      some (pairs.map decode_nibble_pair, [],
        pairs.flatMap (byte_read_trace addr dc)) := by
  induction pairs with
  | nil => rfl
  | cons p rest ih =>
    obtain ⟨hi, lo⟩ := p
    simp only [List.length_cons, nibble_pair_script, read_nibbles_loop, ih,
      List.map_cons, List.flatMap_cons, decode_nibble_pair, byte_read_trace,
      data_field_of_byte, and15_idem]

/-- C4 (amended): a read-N-bytes call on the generic PCF8574T adapter polls
the busy flag once, up front (looping until it reports clear), not once per
output byte; it then reads, for every output byte, the high nibble first
and the low nibble second and combines them as `(high << 4) | low` out of
the DATA bit positions of the bytes returned on the bus. -/
theorem c4_read_bytes_decode (addr : Nat) (s : GenericPCF8574TBitField)
    (rs_setting : Bool) (p : Nat) (pairs : List (Nat × Nat)) (fuel : Nat)
    (hp : (data_field_of_byte p) &&& 0b1000 = 0) :
    read_bytes_from_controller addr s 0 rs_setting pairs.length
        (p :: nibble_pair_script pairs) (fuel + 1) =
      some (.ok (pairs.map decode_nibble_pair), [],
        busy_poll_trace addr s.backlight p ++
        [.busWrite addr [(read_control_state s rs_setting).bits]] ++
        pairs.flatMap (byte_read_trace addr (read_control_state s rs_setting))) := by
  rw [read_bytes_from_controller]
  rw [if_neg (by decide)]
  have hbusy : is_busy addr s (p :: nibble_pair_script pairs) =
      some (false, nibble_pair_script pairs, busy_poll_trace addr s.backlight p) := by
    rw [show is_busy addr s (p :: nibble_pair_script pairs) =
        some (((data_field_of_byte p) &&& 0b1000) != 0, nibble_pair_script pairs,
          busy_poll_trace addr s.backlight p) from rfl, hp]
    rfl
  rw [wait_not_busy, hbusy]
  simp only [Bool.false_eq_true, if_false]
  rw [show (((s.set_data 15).set_enable 0).set_rs rs_setting.toNat).set_rw 1 =
      read_control_state s rs_setting from rfl]
  rw [read_nibbles_loop_spec]

/-- Witness for C4 at one concrete byte pair: nibble reads 0xD6 then 0xE6
decode to 0xDE. -/
theorem c4_witness :
    read_bytes_from_controller 0x27 ⟨0, 0, 0, 0, 0⟩ 0 false
        ([((0xD6 : Nat), (0xE6 : Nat))].length)
        (0x26 :: nibble_pair_script [(0xD6, 0xE6)]) 1 =
      some (.ok ([((0xD6 : Nat), (0xE6 : Nat))].map decode_nibble_pair), [],
        busy_poll_trace 0x27 0 0x26 ++
        [.busWrite 0x27 [(read_control_state ⟨0, 0, 0, 0, 0⟩ false).bits]] ++
        [((0xD6 : Nat), (0xE6 : Nat))].flatMap
          (byte_read_trace 0x27 (read_control_state ⟨0, 0, 0, 0, 0⟩ false))) :=
  c4_read_bytes_decode 0x27 ⟨0, 0, 0, 0, 0⟩ false 0x26 [(0xD6, 0xE6)] 0 (by decide)

/-- C4 counterexample: reading 2 bytes with the busy flag immediately clear
issues 5 bus reads (one poll plus two nibble reads per byte) — a poll
repeated before each byte's read, as the claim states, would issue 6. -/
theorem c4_counterexample :
    (read_bytes_from_controller 0x27 ⟨0, 0, 0, 0, 0⟩ 0 false 2
        [0x26, 0xD6, 0xE6, 0xA6, 0xD6] 5).map
      (fun r => (r.1, r.2.1, countWrites r.2.2, countReads r.2.2)) =
      some (.ok [0xDE, 0xAD], [], 14, 5) ∧
    (5 : Nat) ≠ 2 * 1 + 2 * 2 := by
  exact ⟨rfl, by decide⟩

/-- If every step of a sequenced loop leaves `active_controller` unchanged,
so does the whole loop. -/
theorem runSeq_active {σ α : Type} (f : α → HD44780State × σ → DriverStep σ)
    (h : ∀ x t, (((f x t).2.1).1).active_controller = (t.1).active_controller) :
    ∀ (xs : List α) (st : HD44780State × σ),
      (((runSeq xs f st).2.1).1).active_controller = (st.1).active_controller := by
  intro xs
  induction xs with
  | nil => intro st; rfl
  | cons x rest ih =>
    intro st
    have hx := h x st
    unfold runSeq
    rcases hfx : f x st with ⟨r, st', t⟩
    rw [hfx] at hx
    cases r with
    | error e => exact hx
    | ok u => exact (ih st').trans hx

/-- `set_cursor_controller` never changes `active_controller`. -/
theorem set_cursor_controller_active {σ : Type} (D : AdapterOps σ)
    (lcd : LcdDisplayType) (st : HD44780State) (s : σ) (controller col row : Nat) :
    (((set_cursor_controller D lcd st s controller col row).2.1).1).active_controller =
      st.active_controller := by
  unfold set_cursor_controller
  split
  · rfl
  split
  · rfl
  · rfl

/-- `create_char_controller` never changes `active_controller`. -/
theorem create_char_controller_active {σ : Type} (D : AdapterOps σ)
    (st : HD44780State) (s : σ) (controller location : Nat) (charmap : List Nat) :
    (((create_char_controller D st s controller location charmap).2.1).1).active_controller =
      st.active_controller := by
  unfold create_char_controller
  rcases hfx : send_command_to_controller D s controller
      (LCD_CMD_SETCGRAMADDR ||| ((location &&& 0x7) <<< 3)) with ⟨r, s', t⟩
  cases r with
  | error e => rfl
  | ok u => exact runSeq_active _ (fun x t => rfl) charmap (st, s')

/-- C9: the active controller index always stays below the adapter's
controller count: it is 0 in the default state, reset to 0 by
`init_display_state` and by (a successful) `home`, every modelled display
operation preserves the bound whenever the adapter's row-to-controller
mapping lands below the controller count, and that mapping does land below
the controller count for every row on all three adapters. -/
theorem c9_active_controller_invariant :
    (∀ (σ : Type) (D : AdapterOps σ) (lcd : LcdDisplayType) (op : DriverOp)
        (st : HD44780State) (s : σ),
      (∀ r, (D.rowToControllerRow r).1 < D.controllerCount) →
      0 < D.controllerCount →
      st.active_controller < D.controllerCount →
      (((applyOp D lcd op (st, s)).2.1).1).active_controller < D.controllerCount) ∧
    (∀ addr row, ((genericOps addr).rowToControllerRow row).1 <
      (genericOps addr).controllerCount) ∧
    (∀ addr row, ((dualOps addr).rowToControllerRow row).1 <
      (dualOps addr).controllerCount) ∧
    (∀ addr row, ((adafruitOps addr).rowToControllerRow row).1 <
      (adafruitOps addr).controllerCount) ∧
    (HD44780State.default.active_controller = 0) ∧
    (∀ (σ : Type) (D : AdapterOps σ) (lcd : LcdDisplayType) (f c m : Nat)
        (st : HD44780State) (s : σ),
      (((applyOp D lcd (.opInitDisplayState f c m) (st, s)).2.1).1).active_controller = 0) ∧
    (∀ (σ : Type) (D : AdapterOps σ) (lcd : LcdDisplayType) (st : HD44780State)
        (s : σ) (u : Unit) (st' : HD44780State × σ) (t : List BusOp),
      applyOp D lcd .opHome (st, s) = (.ok u, st', t) →
      (st'.1).active_controller = 0) := by
  refine ⟨?_, ?_, ?_, ?_, rfl, ?_, ?_⟩
  · intro σ D lcd op st s hmap hcount hst
    cases op with
    | opInitDisplayState f c m => exact hcount
    | opClear =>
      exact (runSeq_active _ (fun x t => rfl) _ (st, s)).trans_lt hst
    | opHome =>
      show (((home D st s).2.1).1).active_controller < D.controllerCount
      unfold home home_controller
      rcases hsc : send_command_to_controller D s 0 LCD_CMD_RETURNHOME with ⟨r, s', t⟩
      cases r with
      | error e => exact hst
      | ok u => exact hcount
    | opSetCursor col row =>
      show (((set_cursor D lcd st s col row).2.1).1).active_controller < D.controllerCount
      unfold set_cursor
      split
      · exact hst
      split
      · exact hst
      · exact (set_cursor_controller_active D lcd _ s _ col _).trans_lt (hmap row)
    | opShowCursor b =>
      exact (runSeq_active _ (fun x t => rfl) _ (st, s)).trans_lt hst
    | opBlinkCursor b =>
      exact (runSeq_active _ (fun x t => rfl) _ (st, s)).trans_lt hst
    | opShowDisplay b =>
      exact (runSeq_active _ (fun x t => rfl) _ (st, s)).trans_lt hst
    | opScrollLeft =>
      exact (runSeq_active _ (fun x t => rfl) _ (st, s)).trans_lt hst
    | opScrollRight =>
      exact (runSeq_active _ (fun x t => rfl) _ (st, s)).trans_lt hst
    | opLeftToRight =>
      exact (runSeq_active _ (fun x t => rfl) _ (st, s)).trans_lt hst
    | opRightToLeft =>
      exact (runSeq_active _ (fun x t => rfl) _ (st, s)).trans_lt hst
    | opAutoscroll b =>
      exact (runSeq_active _ (fun x t => rfl) _ (st, s)).trans_lt hst
    | opPrint text =>
      exact (runSeq_active _ (fun x t => rfl) text (st, s)).trans_lt hst
    | opBacklight b => exact hst
    | opCreateChar location charmap =>
      exact (runSeq_active _
        (fun x t => create_char_controller_active D t.1 t.2 x location charmap) _
        (st, s)).trans_lt hst
  · intro addr row
    exact Nat.zero_lt_one
  · intro addr row
    show (if row < 2 then ((0 : Nat), row) else (1, row - 2)).1 < 2
    split <;> norm_num
  · intro addr row
    exact Nat.zero_lt_one
  · intro σ D lcd f c m st s
    rfl
  · intro σ D lcd st s u st' t h
    unfold applyOp home home_controller at h
    rcases hsc : send_command_to_controller D s 0 LCD_CMD_RETURNHOME with ⟨r, s', t₂⟩
    rw [hsc] at h
    cases r with
    | error e => exact absurd h (by simp)
    | ok v =>
      have h2 := congrArg (fun p => ((p.2.1).1).active_controller) h
      simpa using h2.symm

/-- Witness for C9 at a concrete operation: `set_cursor(10, 2)` on the dual
adapter lands the active controller below the controller count. -/
theorem c9_witness :
    (((applyOp (dualOps 0x27) .Lcd40x4 (.opSetCursor 10 2)
        (HD44780State.default, (⟨0, 0, 0, 0, 0⟩ : DualHD44780_PCF8574TBitField))).2.1).1).active_controller <
      (dualOps 0x27).controllerCount :=
  c9_active_controller_invariant.1 DualHD44780_PCF8574TBitField (dualOps 0x27)
    .Lcd40x4 (.opSetCursor 10 2) HD44780State.default ⟨0, 0, 0, 0, 0⟩
    (c9_active_controller_invariant.2.2.1 0x27) (by decide) (by decide)

end I2cCharDisplay
